import Mathlib

/-!
Shallow embedding of `src/model.py` (a LLaMA-style decoder-only transformer core)
and verification of the specification claims against it.

Modelling conventions:
* Python integers are `Nat` where the source guarantees non-negativity and `Int`
  where negative values occur (`vocab_size` defaults to `-1`).
* Tensors are nested lists (`Tensor2/3/4`) over `ℚ`; the per-layer KV cache, which
  the source mutates through slice assignment, is an explicit function from
  (batch slot, position) to the stored tensor.
* Python `float` arithmetic is modelled exactly over `ℚ`; the rotary table entries
  `torch.polar(1, m·θᵢ)` are represented symbolically by the pair `(m, i)` of the
  position and the frequency index, since only their structure matters to the claims.
* Fallible Python code (assertions, `TypeError`s from misused torch functions)
  becomes `Except String`.
-/

namespace Llama2

/-- The `ModelArgs` dataclass (model.py lines 7-22), with its default values. -/
structure ModelArgs where
  dim : Nat := 4096
  n_layers : Nat := 32
  n_heads : Nat := 32
  n_kv_heads : Option Nat := none
  vocab_size : Int := -1
  multiple_of : Nat := 256
  ffn_dim_multiplier : Option ℚ := none
  norm_eps : ℚ := 1 / 10000
  max_batch_size : Nat := 32
  max_seq_len : Nat := 2048
  device : Option String := none
  deriving Repr, DecidableEq

abbrev Tensor2 (α : Type) := List (List α)
abbrev Tensor3 (α : Type) := List (List (List α))
abbrev Tensor4 (α : Type) := List (List (List (List α)))

/-- One entry of the precomputed rotary table: `torch.polar(1, m · θᵢ)`, the
unit-magnitude complex rotation `exp(I · m · θᵢ)` with `θᵢ = 10000^(-2i/head_dim)`
(model.py lines 28-39), represented symbolically by the position `m` and the
frequency index `i` (the angles are irrational, and no claim needs their value). -/
structure PolarEntry where
  pos : Nat
  idx : Nat
  deriving Repr, DecidableEq

/-- `precompute_theta_pos_embeddings` (model.py lines 24-40).
The Python guard is `assert head_dim % 2, "According to paper, must be even"`:
it raises `AssertionError` exactly when `head_dim % 2` is falsy, i.e. when
`head_dim` is even.  Otherwise `theta_numerator = torch.arange(0, head_dim, 2)`
(of length `(head_dim+1)/2`), the frequencies are `10000^(-θnum/head_dim)`, and
the table is the outer product of positions `0..seq_len-1` with the frequencies,
turned into unit rotations by `torch.polar`. -/
def precompute_theta_pos_embeddings (head_dim seq_len : Nat) :
    Except String (List (List PolarEntry)) :=
  if head_dim % 2 = 0 then
    Except.error "According to paper, must be even"
  else
    Except.ok ((List.range seq_len).map fun m =>
      (List.range ((head_dim + 1) / 2)).map fun i => PolarEntry.mk m i)

/-- `repeat_kv` (model.py lines 55-64): with `n_rep == 1` the input is returned
unchanged; otherwise each key/value head is replicated `n_rep` times along a new
axis (`expand`) and the head axes are flattened (`reshape`), which places the
`n_rep` copies of each source head contiguously. -/
def repeat_kv {α : Type} (x : Tensor4 α) (n_rep : Nat) : Tensor4 α :=
  if n_rep = 1 then x
  else x.map fun batch => batch.map fun seq =>
    (seq.map fun head => List.replicate n_rep head).flatten

/-- Element lookup in a rank-4 tensor, `none` out of bounds. -/
def t4get {α : Type} (x : Tensor4 α) (b s h d : Nat) : Option α :=
  (((x[b]?.bind fun bb => bb[s]?).bind fun ss => ss[h]?).bind fun hh => hh[d]?)

/-- The KV-cache slice assignment
`cache[:batch_size, start_pos:start_pos+seq_len] = xs` (model.py lines 115-116):
batch slots below `batch_size` and positions in `[start_pos, start_pos+seq_len)`
now hold the corresponding entry of `xs`; everything else is unchanged. -/
def cache_write {α : Type} (cache : Nat → Nat → α) (batch_size start_pos seq_len : Nat)
    (xs : Nat → Nat → α) : Nat → Nat → α :=
  fun b p =>
    if b < batch_size ∧ start_pos ≤ p ∧ p < start_pos + seq_len then xs b (p - start_pos)
    else cache b p

/-- The KV-cache read `cache[:batch_size, 0:upto]` (model.py lines 119-120):
for each batch slot below `batch_size`, the history of positions `[0, upto)`. -/
def cache_read {α : Type} (cache : Nat → Nat → α) (batch_size upto : Nat) :
    List (List α) :=
  (List.range batch_size).map fun b => (List.range upto).map fun p => cache b p

/-- `torch.view_as_complex` applied to `x.float().reshape(*x.shape[:-1], -1, 2)`
(model.py line 44): the trailing dimension is reinterpreted as consecutive
real/imaginary pairs; the reshape to `(-1, 2)` fails when that dimension is odd. -/
def view_as_complex (v : List ℚ) : Except String (List (ℚ × ℚ)) :=
  match v with
  | [] => Except.ok []
  | [_] => Except.error "RuntimeError: shape is invalid for input of odd size"
  | a :: b :: rest => (view_as_complex rest).map fun l => (a, b) :: l

/-- `view_as_complex` over the trailing dimension of a rank-4 tensor. -/
def view_as_complex4 (x : Tensor4 ℚ) : Except String (Tensor4 (ℚ × ℚ)) :=
  x.mapM fun bb => bb.mapM fun ss => ss.mapM view_as_complex

/-- Line 46 of model.py reads `freqs_complex = torch.unsqueeze(0).unsqueeze(2)`:
`unsqueeze` is called on the `torch` module with the integer `0` as its input
(instead of `freqs_complex.unsqueeze(0)`), and `torch.unsqueeze` requires a
Tensor input, so every call raises a `TypeError`. -/
def torch_unsqueeze_int (i : Nat) : Except String (List (List PolarEntry)) :=
  Except.error "TypeError: unsqueeze received an invalid combination of arguments - got (int)"

/-- `apply_rotary_embeddings` (model.py lines 42-53).  The element-wise complex
multiplication by a table entry is abstracted into the parameter `rotate`
(the table entries are symbolic rotations); the final `view_as_real`/`reshape`
flattens each rotated pair back into two adjacent coordinates.  The broadcast of
the (1, seq, 1, d/2)-shaped table against the (B, seq, H, d/2)-shaped input pairs
each sequence position with its table row and each pair index with its column. -/
def apply_rotary_embeddings (rotate : ℚ × ℚ → PolarEntry → ℚ × ℚ)
    (x : Tensor4 ℚ) (freqs_complex : List (List PolarEntry)) :
    Except String (Tensor4 ℚ) := do
  let _x_complex ← view_as_complex4 x
  let freqs_complex ← torch_unsqueeze_int 0
  let x_rotated := _x_complex.map fun bb =>
    (bb.zip freqs_complex).map fun sf =>
      sf.1.map fun hh => (hh.zip sf.2).map fun cf => rotate cf.1 cf.2
  let x_out := x_rotated.map fun bb => bb.map fun ss => ss.map fun hh =>
    hh.flatMap fun c => [c.1, c.2]
  pure x_out

/-- Python `int()` on an exact rational: truncation toward zero
(`Int` division in Lean also truncates toward zero). -/
def pyInt (q : ℚ) : Int := q.num / (q.den : Int)

/-- The dimensions of the three `nn.Linear` maps a `FeedForward` instance builds. -/
structure FeedForwardState where
  w1_in : Nat
  w1_out : Nat
  w2_in : Nat
  w2_out : Nat
  w3_in : Nat
  w3_out : Nat
  deriving Repr, DecidableEq

/-- `FeedForward.__init__` (model.py lines 143-155): `hidden_dim = 4*dim`, then
`int(2*hidden_dim/3)`, then, if `ffn_dim_multiplier` is given, it is replaced by
`int(ffn_dim_multiplier)`.  Line 151 computes the round-up to the next multiple
of `multiple_of` into the local `hidden`, but the three linear layers on lines
153-155 are built with `hidden_dim`, so `hidden` is never used. -/
def FeedForward_init (args : ModelArgs) : FeedForwardState :=
  let hidden_dim := 4 * args.dim
  let hidden_dim := 2 * hidden_dim / 3
  let hidden_dim := match args.ffn_dim_multiplier with
    | none => hidden_dim
    | some m => (pyInt m).toNat
  let hidden := args.multiple_of * ((hidden_dim + args.multiple_of - 1) / args.multiple_of)
  { w1_in := args.dim, w1_out := hidden_dim
    w2_in := hidden_dim, w2_out := args.dim
    w3_in := args.dim, w3_out := hidden_dim }

/-- Modelled from the spec (§4.7): the hidden width is `int(2·(4·dim)/3)`,
replaced by the configured multiplier when one is provided, and then rounded up
to the nearest multiple of `multiple_of`.  Stated for comparison with what
`FeedForward_init` actually uses. -/
def hiddenWidth_spec (args : ModelArgs) : Nat :=
  let base := 2 * (4 * args.dim) / 3
  let base := match args.ffn_dim_multiplier with
    | none => base
    | some m => (pyInt m).toNat
  args.multiple_of * ((base + args.multiple_of - 1) / args.multiple_of)

/-- `EncoderBlock.forward` (model.py lines 180-184), with the attention unit,
the feed-forward unit and the two normalizers as parameters:
`h = x + attention(attention_norm(x), start_pos, freqs_complex)` and
`out = h + feed_forward(ffn_norm(x))` — note line 183 normalizes `x`,
the block input, not `h`. -/
def EncoderBlock_forward {T F : Type} [Add T] (attention : T → Nat → F → T)
    (feed_forward : T → T) (attention_norm ffn_norm : T → T)
    (x : T) (start_pos : Nat) (freqs_complex : F) : T :=
  let h := x + attention (attention_norm x) start_pos freqs_complex
  h + feed_forward (ffn_norm x)

/-- Modelled from the spec (§4.8): `output = h + FeedForward(Norm(h))` where
`h = x + Attention(Norm(x), start_pos, rotary_slice)`.  Stated for comparison
with `EncoderBlock_forward`. -/
def EncoderBlock_forward_spec {T F : Type} [Add T] (attention : T → Nat → F → T)
    (feed_forward : T → T) (attention_norm ffn_norm : T → T)
    (x : T) (start_pos : Nat) (freqs_complex : F) : T :=
  let h := x + attention (attention_norm x) start_pos freqs_complex
  h + feed_forward (ffn_norm h)

/-- The fields `SelfAttention.__init__` would set (model.py lines 80-95).
No code path in the repository ever constructs one (see `EncoderBlock_init`). -/
structure SelfAttentionState where
  n_kv_heads : Nat
  n_heads_q : Nat
  n_rep : Nat
  head_dim : Nat
  deriving Repr, DecidableEq

/-- The state of an `RMSNorm` module (model.py lines 67-71): the epsilon and the
length of the all-ones initial weight vector. -/
structure RMSNormState where
  eps : ℚ
  weight_len : Nat
  deriving Repr, DecidableEq

/-- `RMSNorm.__init__` (model.py lines 68-71). -/
def RMSNorm_init (dim : Nat) (eps : ℚ) : RMSNormState :=
  { eps := eps, weight_len := dim }

/-- Model.py line 172 calls `SelfAttention()` with no argument, but
`SelfAttention.__init__(self, args)` requires the positional argument `args`,
so Python raises a `TypeError` at the call, before the body runs. -/
def SelfAttention_call_missing_args : Except String SelfAttentionState :=
  Except.error "TypeError: SelfAttention.__init__ missing 1 required positional argument: args"

/-- Model.py line 173 calls `FeedForward()` with no argument, but
`FeedForward.__init__(self, args)` requires the positional argument `args`. -/
def FeedForward_call_missing_args : Except String FeedForwardState :=
  Except.error "TypeError: FeedForward.__init__ missing 1 required positional argument: args"

/-- The fields `EncoderBlock.__init__` sets (model.py lines 165-178). -/
structure EncoderBlockState where
  n_heads : Nat
  dim : Nat
  head_dim : Nat
  attention : SelfAttentionState
  feed_forward : FeedForwardState
  attention_norm : RMSNormState
  ffn_norm : RMSNormState
  deriving Repr, DecidableEq

/-- `EncoderBlock.__init__` (model.py lines 165-178): lines 168-170 compute the
plain fields (`args.dim // args.n_heads` raises `ZeroDivisionError` when
`n_heads = 0`), then line 172 constructs `SelfAttention()` without its required
argument, and line 173 likewise for `FeedForward()`. -/
def EncoderBlock_init (args : ModelArgs) : Except String EncoderBlockState := do
  if args.n_heads = 0 then
    Except.error "ZeroDivisionError: integer division or modulo by zero"
  else
    let head_dim := args.dim / args.n_heads
    let attention ← SelfAttention_call_missing_args
    let feed_forward ← FeedForward_call_missing_args
    pure { n_heads := args.n_heads, dim := args.dim, head_dim := head_dim
           attention := attention, feed_forward := feed_forward
           attention_norm := RMSNorm_init args.dim args.norm_eps
           ffn_norm := RMSNorm_init args.dim args.norm_eps }

/-- `nn.Embedding(num_embeddings, embedding_dim)` (model.py line 193): allocating
the weight tensor fails when the requested vocabulary size is negative (the
default `ModelArgs.vocab_size` is `-1`). -/
def Embedding_init (num_embeddings : Int) (embedding_dim : Nat) : Except String Unit :=
  if num_embeddings < 0 then
    Except.error "RuntimeError: Trying to create tensor with negative dimension"
  else
    Except.ok ()

/-- `nn.Linear(in_features, out_features)` with a possibly negative output width
(model.py line 201 uses `vocab_size`). -/
def Linear_init_out (in_features : Nat) (out_features : Int) : Except String Unit :=
  if out_features < 0 then
    Except.error "RuntimeError: Trying to create tensor with negative dimension"
  else
    Except.ok ()

/-- The layer loop of `Transformers.__init__` (model.py lines 195-197):
`for _ in range(n_layers): self.layers.append(EncoderBlock(args))`. -/
def Transformers_mkLayers (args : ModelArgs) : Nat → Except String (List EncoderBlockState)
  | 0 => Except.ok []
  | n + 1 => do
    let layers ← Transformers_mkLayers args n
    let block ← EncoderBlock_init args
    pure (layers ++ [block])

/-- The fields `Transformers.__init__` sets (model.py lines 187-203). -/
structure TransformersState where
  vocab_size : Int
  n_layers : Nat
  layers : List EncoderBlockState
  norm : RMSNormState
  freqs_complex : List (List PolarEntry)
  deriving Repr, DecidableEq

/-- `Transformers.__init__` (model.py lines 187-203), in source order:
the token embedding (fails for negative `vocab_size`), the layer loop
(each iteration constructs an `EncoderBlock`), the final norm, the output
projection, and the rotary table for `dim // n_heads` and `max_seq_len * 2`
(`//` raises `ZeroDivisionError` when `n_heads = 0`). -/
def Transformers_init (args : ModelArgs) : Except String TransformersState := do
  let _ ← Embedding_init args.vocab_size args.dim
  let layers ← Transformers_mkLayers args args.n_layers
  let norm := RMSNorm_init args.dim args.norm_eps
  let _ ← Linear_init_out args.dim args.vocab_size
  if args.n_heads = 0 then
    Except.error "ZeroDivisionError: integer division or modulo by zero"
  else
    let freqs_complex ← precompute_theta_pos_embeddings (args.dim / args.n_heads)
      (args.max_seq_len * 2)
    pure { vocab_size := args.vocab_size, n_layers := args.n_layers
           layers := layers, norm := norm, freqs_complex := freqs_complex }

/-- The entry of `Transformers.forward` (model.py lines 205-208):
`batch_size, seq_len = tokens.shape` followed by
`assert seq_len == 1, "Only one token at a time can be processed"`.
The token tensor is rectangular, so `seq_len` is the length of its first row;
the assert runs before the embedding lookup or any layer is consulted. -/
def Transformers_forward_precheck (tokens : Tensor2 Int) : Except String (Nat × Nat) :=
  let batch_size := tokens.length
  let seq_len := (tokens.headD []).length
  if seq_len = 1 then Except.ok (batch_size, seq_len)
  else Except.error "Only one token at a time can be processed"

/-- Dot product of two vectors. -/
def dot (v w : List ℚ) : ℚ :=
  ((v.zip w).map fun p => p.1 * p.2).sum

/-- `nn.Linear` without bias: `y = x Wᵗ`, i.e. each output coordinate is the dot
product of the input with a weight row. -/
def matvec (w : Tensor2 ℚ) (v : List ℚ) : List ℚ :=
  w.map (dot v)

/-- A bias-free linear layer applied over the trailing dimension of a rank-3 tensor. -/
def linear3 (w : Tensor2 ℚ) (x : Tensor3 ℚ) : Tensor3 ℚ :=
  x.map fun bb => bb.map (matvec w)

/-- `view(batch_size, seq_len, H, head_dim)` on a `(batch, seq, H*head_dim)` tensor
(model.py lines 106-108): the trailing dimension is split into `H` chunks of
`head_dim`. -/
def view34 (x : Tensor3 ℚ) (h d : Nat) : Tensor4 ℚ :=
  x.map fun bb => bb.map fun ss =>
    (List.range h).map fun hi => (List.range d).map fun di => ss.getD (hi * d + di) 0

/-- `transpose(1, 2)` on a rank-4 tensor (model.py lines 127-129). -/
def t4transpose12 (x : Tensor4 ℚ) : Tensor4 ℚ :=
  x.map List.transpose

/-- `transpose(2, 3)` on a rank-4 tensor (model.py line 132). -/
def t4transpose23 (x : Tensor4 ℚ) : Tensor4 ℚ :=
  x.map fun bb => bb.map List.transpose

/-- Matrix product of the two trailing dimensions. -/
def mm (a b : Tensor2 ℚ) : Tensor2 ℚ :=
  a.map fun row => b.transpose.map (dot row)

/-- Batched `torch.matmul` over the two leading dimensions (model.py lines 132, 136). -/
def matmul4 (x y : Tensor4 ℚ) : Tensor4 ℚ :=
  (x.zip y).map fun bb => (bb.1.zip bb.2).map fun hh => mm hh.1 hh.2

/-- Row `(b, s)` of a rank-4 tensor, as the `(head, dim)` matrix stored there. -/
def t4row (x : Tensor4 ℚ) : Nat → Nat → Tensor2 ℚ :=
  fun b s => (x.getD b []).getD s []

/-- Line 132 of model.py computes `torch.sqrt(self.head_dim)`: `torch.sqrt`
requires a Tensor input but `self.head_dim` is a Python `int`, so every call
raises a `TypeError` (the working spelling would be `math.sqrt`). -/
def torch_sqrt_int (n : Nat) : Except String ℚ :=
  Except.error "TypeError: sqrt received an invalid combination of arguments - got (int)"

/-- The weight matrices of a `SelfAttention` unit (model.py lines 89-92). -/
structure SelfAttentionWeights where
  wq : Tensor2 ℚ
  wk : Tensor2 ℚ
  wv : Tensor2 ℚ
  wo : Tensor2 ℚ

/-- `SelfAttention.forward` (model.py lines 97-140).  `softmax` abstracts
`F.softmax` over the trailing axis and `rotate` the elementwise complex
multiplication inside `apply_rotary_embeddings` (both involve transcendental
float arithmetic); everything else is the literal dataflow: project to q/k/v,
reshape per head, rotate q and k, write the new k/v into the cache, read the
full history, expand kv heads, transpose, form `qkᵗ` scaled by
`torch.sqrt(head_dim)` (which raises: the head dimension is an `int`), softmax,
weight the values, concatenate heads and project out.  Returns the output
together with the updated caches. -/
def SelfAttention_forward (softmax : List ℚ → List ℚ) (rotate : ℚ × ℚ → PolarEntry → ℚ × ℚ)
    (w : SelfAttentionWeights) (n_heads_q n_kv_heads head_dim : Nat)
    (cache_k cache_v : Nat → Nat → Tensor2 ℚ)
    (x : Tensor3 ℚ) (start_pos : Nat) (freq_complex : List (List PolarEntry)) :
    Except String (Tensor3 ℚ × (Nat → Nat → Tensor2 ℚ) × (Nat → Nat → Tensor2 ℚ)) := do
  let batch_size := x.length
  let seq_len := (x.headD []).length
  let xq := linear3 w.wq x
  let xk := linear3 w.wk x
  let xv := linear3 w.wv x
  let xq := view34 xq n_heads_q head_dim
  let xk := view34 xk n_kv_heads head_dim
  let xv := view34 xv n_kv_heads head_dim
  let xq ← apply_rotary_embeddings rotate xq freq_complex
  let xk ← apply_rotary_embeddings rotate xk freq_complex
  let cache_k := cache_write cache_k batch_size start_pos seq_len (t4row xk)
  let cache_v := cache_write cache_v batch_size start_pos seq_len (t4row xv)
  let keys := cache_read cache_k batch_size (start_pos + seq_len)
  let values := cache_read cache_v batch_size (start_pos + seq_len)
  let n_rep := n_heads_q / n_kv_heads
  let keys := repeat_kv keys n_rep
  let values := repeat_kv values n_rep
  let xq := t4transpose12 xq
  let keys := t4transpose12 keys
  let values := t4transpose12 values
  let qk := matmul4 xq (t4transpose23 keys)
  let scale ← torch_sqrt_int head_dim
  let scores := qk.map fun bb => bb.map fun hh => hh.map fun row => row.map (· / scale)
  let scores := scores.map fun bb => bb.map fun hh => hh.map softmax
  let output := matmul4 scores values
  let output := (t4transpose12 output).map fun bb => bb.map fun ss => ss.flatten
  let output := linear3 w.wo output
  pure (output, cache_k, cache_v)

/-! Helper lemmas. -/

lemma apply_rotary_embeddings_error (rotate : ℚ × ℚ → PolarEntry → ℚ × ℚ)
    (x : Tensor4 ℚ) (freqs_complex : List (List PolarEntry)) :
    ∃ e, apply_rotary_embeddings rotate x freqs_complex = Except.error e := by
  unfold apply_rotary_embeddings
  cases h : view_as_complex4 x with
  | error e => exact ⟨e, by simp [h, Bind.bind, Except.bind]⟩
  | ok v =>
    exact ⟨"TypeError: unsqueeze received an invalid combination of arguments - got (int)",
      by simp [h, Bind.bind, Except.bind, torch_unsqueeze_int]⟩

lemma encoderBlock_init_error (args : ModelArgs) :
    ∃ e, EncoderBlock_init args = Except.error e := by
  unfold EncoderBlock_init
  by_cases h : args.n_heads = 0
  · exact ⟨"ZeroDivisionError: integer division or modulo by zero", by simp [h]⟩
  · exact ⟨"TypeError: SelfAttention.__init__ missing 1 required positional argument: args",
      by simp [h, SelfAttention_call_missing_args, Bind.bind, Except.bind]⟩

lemma transformers_mkLayers_error (args : ModelArgs) (n : Nat) (hn : 1 ≤ n) :
    ∃ e, Transformers_mkLayers args n = Except.error e := by
  induction n with
  | zero => omega
  | succ m ih =>
    rw [Transformers_mkLayers]
    by_cases hm : 1 ≤ m
    · obtain ⟨e, he⟩ := ih hm
      exact ⟨e, by simp [he, Bind.bind, Except.bind]⟩
    · have hm0 : m = 0 := by omega
      subst hm0
      obtain ⟨e, he⟩ := encoderBlock_init_error args
      exact ⟨e, by simp [Transformers_mkLayers, he, Bind.bind, Except.bind]⟩

lemma flatten_replicate_length {α : Type} (k : Nat) (l : List α) :
    ((l.map (List.replicate k)).flatten).length = l.length * k := by
  induction l with
  | nil => simp
  | cons a t ih => simp [ih, Nat.succ_mul, Nat.add_comm]

lemma flatten_replicate_getElem {α : Type} (k : Nat) :
    ∀ (l : List α) (i r : Nat), r < k →
      ((l.map (List.replicate k)).flatten)[i * k + r]? = l[i]? := by
  intro l
  induction l with
  | nil => intro i r _; simp
  | cons a t ih =>
    intro i r hr
    simp only [List.map_cons, List.flatten_cons]
    cases i with
    | zero =>
      rw [Nat.zero_mul, Nat.zero_add, List.getElem?_append, List.length_replicate,
        if_pos hr]
      simp [List.getElem?_replicate, hr]
    | succ j =>
      rw [List.getElem?_append, List.length_replicate]
      have hge : ¬ ((j + 1) * k + r < k) := by
        rw [Nat.succ_mul]; omega
      rw [if_neg hge]
      have harith : (j + 1) * k + r - k = j * k + r := by
        rw [Nat.succ_mul]; omega
      rw [harith, ih j r hr]
      simp

/-! Claim theorems. -/

/-- C1 (amended): constructing an `EncoderBlock` fails for every configuration,
because `SelfAttention()` and `FeedForward()` are called without their required
configuration argument (and `n_heads = 0` fails even earlier, at the head-dim
division); consequently `Transformers.__init__` fails for every configuration
with at least one layer.  With `n_layers = 0` no block is constructed and a
model instance can be built, so the unqualified claim is refuted by the
counterexample theorem. -/
theorem encoderBlock_and_transformers_construction_fails :
    (∀ args : ModelArgs, (EncoderBlock_init args).isOk = false) ∧
    (∀ args : ModelArgs, 1 ≤ args.n_layers → (Transformers_init args).isOk = false) := by
  constructor
  · intro args
    obtain ⟨e, he⟩ := encoderBlock_init_error args
    simp [he, Except.isOk, Except.toBool]
  · intro args hn
    unfold Transformers_init
    cases hv : Embedding_init args.vocab_size args.dim with
    | error e => simp [hv, Bind.bind, Except.bind, Except.isOk, Except.toBool]
    | ok u =>
      obtain ⟨e, he⟩ := transformers_mkLayers_error args args.n_layers hn
      simp [hv, he, Bind.bind, Except.bind, Except.isOk, Except.toBool]

/-- Witness: at the default configuration (32 layers, and any of the other
defaults) `Transformers.__init__` fails. -/
theorem encoderBlock_and_transformers_construction_fails_witness :
    1 ≤ ({} : ModelArgs).n_layers ∧ (Transformers_init {}).isOk = false :=
  ⟨by decide, encoderBlock_and_transformers_construction_fails.2 {} (by decide)⟩

/-- C1 counterexample: a concrete configuration with `n_layers = 0`, an odd head
dimension and a non-negative vocabulary size, on which `Transformers.__init__`
completes — so it is not true that no model instance can ever be built. -/
theorem transformers_init_succeeds_zero_layers :
    (Transformers_init { dim := 3, n_layers := 0, n_heads := 1, vocab_size := 5,
                         max_batch_size := 1, max_seq_len := 4 }).isOk = true := by
  rfl

/-- C2: at block input `x = 1` over `ℤ` with identity normalizers, identity
feed-forward and an attention unit that returns its input, the code's
`EncoderBlock.forward` yields 3, because line 183 feeds `ffn_norm(x)` (the
original block input, normalized) to the feed-forward; the claimed
`h + FeedForward(ffn_norm(h))` yields 4. -/
theorem encoderBlock_ffn_normalizes_x_not_h :
    EncoderBlock_forward (T := Int) (F := Unit) (fun y _ _ => y) (fun y => y)
        (fun y => y) (fun y => y) 1 0 () = 3 ∧
    EncoderBlock_forward_spec (T := Int) (F := Unit) (fun y _ _ => y) (fun y => y)
        (fun y => y) (fun y => y) 1 0 () = 4 ∧
    EncoderBlock_forward (T := Int) (F := Unit) (fun y _ _ => y) (fun y => y)
        (fun y => y) (fun y => y) 1 0 () ≠
      EncoderBlock_forward_spec (T := Int) (F := Unit) (fun y _ _ => y) (fun y => y)
        (fun y => y) (fun y => y) 1 0 () := by
  refine ⟨rfl, rfl, by decide⟩

/-- C3: `apply_rotary_embeddings` never returns a tensor: line 46 calls
`unsqueeze` on the `torch` module with the `int` 0 as its input, so every call
raises a `TypeError` — the pairwise rotation, shape preservation and magnitude
preservation the claim describes never take place. -/
theorem apply_rotary_embeddings_always_errors
    (rotate : ℚ × ℚ → PolarEntry → ℚ × ℚ) (x : Tensor4 ℚ)
    (freqs_complex : List (List PolarEntry)) :
    (apply_rotary_embeddings rotate x freqs_complex).isOk = false := by
  obtain ⟨e, he⟩ := apply_rotary_embeddings_error rotate x freqs_complex
  simp [he, Except.isOk, Except.toBool]

/-- C4: the even-head-dimension precondition is inverted in the code:
`assert head_dim % 2` passes exactly when `head_dim % 2` is truthy, i.e. when
`head_dim` is odd, so building the rotary table succeeds for odd `d` and raises
`AssertionError` ("According to paper, must be even") for even `d` — the
opposite of the claim. -/
theorem precompute_assert_inverted (head_dim seq_len : Nat) :
    (precompute_theta_pos_embeddings head_dim seq_len).isOk = true ↔
      head_dim % 2 = 1 := by
  unfold precompute_theta_pos_embeddings
  by_cases h : head_dim % 2 = 0
  · simp only [h, if_true, reduceIte, Except.isOk, Except.toBool]
    constructor
    · intro hfalse; cases hfalse
    · intro h1; omega
  · simp only [h, if_false, reduceIte, Except.isOk, Except.toBool]
    constructor
    · intro _; omega
    · intro _; trivial

/-- C5: the attention step never completes: the rotary application on the query
projection (model.py line 111) raises a `TypeError` (the `torch.unsqueeze(0)`
slip of line 46) for every input, and — were that fixed — line 132 would raise
again at `torch.sqrt(self.head_dim)`, since `torch.sqrt` rejects a Python
`int`.  The scaled-dot-product/softmax/weighted-sum pipeline the claim
describes is present in the dataflow but is never executed. -/
theorem selfAttention_forward_always_errors
    (softmax : List ℚ → List ℚ) (rotate : ℚ × ℚ → PolarEntry → ℚ × ℚ)
    (w : SelfAttentionWeights) (n_heads_q n_kv_heads head_dim : Nat)
    (cache_k cache_v : Nat → Nat → Tensor2 ℚ)
    (x : Tensor3 ℚ) (start_pos : Nat) (freq_complex : List (List PolarEntry)) :
    (SelfAttention_forward softmax rotate w n_heads_q n_kv_heads head_dim
      cache_k cache_v x start_pos freq_complex).isOk = false := by
  unfold SelfAttention_forward
  obtain ⟨e, he⟩ := apply_rotary_embeddings_error rotate
    (view34 (linear3 w.wq x) n_heads_q head_dim) freq_complex
  simp [he, Bind.bind, Except.bind, Except.isOk, Except.toBool]

/-- C6: with the default configuration (`dim = 4096`, `multiple_of = 256`, no
multiplier) the three linear maps are built with hidden width 10922 — the value
before rounding — because line 151 stores the rounded width in the unused local
`hidden` while lines 153-155 use `hidden_dim`.  The claimed width (rounded up to
a multiple of `multiple_of`) would be 11008, and the used width is not a
multiple of 256. -/
theorem feedForward_hidden_width_unrounded :
    (FeedForward_init {}).w1_out = 10922 ∧
    (FeedForward_init {}).w2_in = 10922 ∧
    (FeedForward_init {}).w3_out = 10922 ∧
    hiddenWidth_spec {} = 11008 ∧
    ¬ (256 ∣ (FeedForward_init {}).w1_out) := by
  refine ⟨rfl, rfl, rfl, rfl, by decide⟩

/-- C7: writing keys/values for batch slots `[0, b)` at position `p` (a write of
one sequence step, as in model.py lines 115-116) and then reading positions
`[0, p+1)` (lines 119-120) yields, for every written slot, a history whose last
entry is exactly the tensor just written. -/
theorem kvcache_roundtrip {α : Type} (cache : Nat → Nat → α) (xs : Nat → Nat → α)
    (max_batch max_seq b p s : Nat)
    (hb : b ≤ max_batch) (hp : p + 1 ≤ max_seq) (hs : s < b) :
    ((cache_read (cache_write cache b p 1 xs) b (p + 1))[s]?).bind List.getLast? =
      some (xs s 0) := by
  unfold cache_read
  rw [List.getElem?_map]
  rw [List.getElem?_range hs]
  simp only [Option.map_some', Option.some_bind]
  rw [List.range_succ, List.map_append]
  simp only [List.map_cons, List.map_nil]
  rw [List.getLast?_concat]
  unfold cache_write
  rw [if_pos ⟨hs, Nat.le_refl p, Nat.lt_succ_self p⟩]
  rw [Nat.sub_self]

/-- Witness for the KV-cache round-trip at a concrete instance: capacity 4×8,
two written slots, position 3, reading slot 0. -/
theorem kvcache_roundtrip_witness :
    ((cache_read (cache_write (fun _ _ => (0 : Int)) 2 3 1 (fun _ _ => 7)) 2
        (3 + 1))[0]?).bind List.getLast? = some 7 :=
  kvcache_roundtrip (fun _ _ => (0 : Int)) (fun _ _ => 7) 4 8 2 3 0
    (by decide) (by decide) (by decide)

/-- C8: the forward step checks `seq_len == 1` before any processing: a token
tensor whose rows have length 2 fails the assertion with the message from
model.py line 208, and one whose rows have length 1 passes the check. -/
theorem transformers_forward_seq_len_check :
    (∀ tokens : Tensor2 Int, (tokens.headD []).length = 2 →
      Transformers_forward_precheck tokens =
        Except.error "Only one token at a time can be processed") ∧
    (∀ tokens : Tensor2 Int, (tokens.headD []).length = 1 →
      (Transformers_forward_precheck tokens).isOk = true) := by
  constructor
  · intro tokens h
    simp only [Transformers_forward_precheck]
    rw [h]
    rfl
  · intro tokens h
    simp only [Transformers_forward_precheck]
    rw [h]
    rfl

/-- Witness for the sequence-length check at the concrete token tensors
`[[5, 6]]` (seq_len 2, rejected) and `[[5]]` (seq_len 1, accepted). -/
theorem transformers_forward_seq_len_check_witness :
    (([[5, 6]] : Tensor2 Int).headD []).length = 2 ∧
    Transformers_forward_precheck [[5, 6]] =
      Except.error "Only one token at a time can be processed" ∧
    (([[5]] : Tensor2 Int).headD []).length = 1 ∧
    (Transformers_forward_precheck [[5]]).isOk = true :=
  ⟨by decide, transformers_forward_seq_len_check.1 [[5, 6]] (by decide),
   by decide, transformers_forward_seq_len_check.2 [[5]] (by decide)⟩

/-- C9: `repeat_kv` with `n_rep = 1` returns the input unchanged; with
`n_rep = k ≥ 1` the heads axis of every `[batch][seq]` slice is expanded by the
factor `k`, and the element at head slot `i·k + r` — the `r`-th of the `k`
contiguous replicated slots of source head `i` — equals the source element
exactly (out-of-range indices agree as well: both lookups are `none`). -/
theorem repeat_kv_identity_and_replication (α : Type) :
    (∀ x : Tensor4 α, repeat_kv x 1 = x) ∧
    (∀ (x : Tensor4 α) (k b s : Nat), 1 ≤ k →
      ((repeat_kv x k)[b]?.bind fun bb => bb[s]?).map List.length =
        ((x[b]?.bind fun bb => bb[s]?).map fun hs => hs.length * k)) ∧
    (∀ (x : Tensor4 α) (k b s i r d : Nat), 1 ≤ k → r < k →
      t4get (repeat_kv x k) b s (i * k + r) d = t4get x b s i d) := by
  refine ⟨?_, ?_, ?_⟩
  · intro x
    simp [repeat_kv]
  · intro x k b s hk
    by_cases h1 : k = 1
    · subst h1
      simp [repeat_kv]
    · simp only [repeat_kv, if_neg h1]
      rw [List.getElem?_map]
      cases hxb : x[b]? with
      | none => simp
      | some bb =>
        simp only [Option.map_some', Option.some_bind]
        rw [List.getElem?_map]
        cases hbs : bb[s]? with
        | none => simp
        | some ss =>
          simp only [Option.map_some']
          rw [flatten_replicate_length]
  · intro x k b s i r d hk hr
    by_cases h1 : k = 1
    · subst h1
      have hr0 : r = 0 := by omega
      subst hr0
      simp [repeat_kv, Nat.mul_one]
    · simp only [t4get, repeat_kv, if_neg h1]
      rw [List.getElem?_map]
      cases hxb : x[b]? with
      | none => simp
      | some bb =>
        simp only [Option.map_some', Option.some_bind]
        rw [List.getElem?_map]
        cases hbs : bb[s]? with
        | none => simp
        | some ss =>
          simp only [Option.map_some', Option.some_bind]
          rw [flatten_replicate_getElem k ss i r hr]

/-- Witness for the head-replication equalities at the concrete tensor
`[[[[1], [2]]]]` (one batch, one position, two single-coordinate heads) with
`k = 2`: slot `1·2 + 1` of the expansion holds head 1 of the source. -/
theorem repeat_kv_identity_and_replication_witness :
    (1 ≤ 2 ∧ (1 : Nat) < 2) ∧
    t4get (repeat_kv ([[[[1], [2]]]] : Tensor4 ℚ) 2) 0 0 (1 * 2 + 1) 0 =
      t4get ([[[[1], [2]]]] : Tensor4 ℚ) 0 0 1 0 :=
  ⟨by decide, (repeat_kv_identity_and_replication ℚ).2.2 [[[[1], [2]]]] 2 0 0 1 1 0
    (by decide) (by decide)⟩

/-- C10: the rotary table is never built for an even head dimension: the
inverted assertion of model.py line 25 raises for every even `d` — in
particular at `d = 128`, `L = 2·2048`, the arguments that
`Transformers.__init__` (line 203) passes under the default configuration —
instead of producing the claimed `[L, d/2]` table of unit rotations
`exp(i · p · f_i)`. -/
theorem precompute_table_raises_on_even_head_dim :
    (∀ d L : Nat, d % 2 = 0 → precompute_theta_pos_embeddings d L =
      Except.error "According to paper, must be even") ∧
    precompute_theta_pos_embeddings 128 (2048 * 2) =
      Except.error "According to paper, must be even" := by
  constructor
  · intro d L hd
    unfold precompute_theta_pos_embeddings
    rw [if_pos hd]
  · rfl

/-- Witness for the even-head-dimension failure at `d = 4`, `L = 8`. -/
theorem precompute_table_raises_on_even_head_dim_witness :
    (4 : Nat) % 2 = 0 ∧
    precompute_theta_pos_embeddings 4 8 =
      Except.error "According to paper, must be even" :=
  ⟨by decide, precompute_table_raises_on_even_head_dim.1 4 8 (by decide)⟩

end Llama2
